import Mathlib

/-!
Verification of the authentication & session-integrity subsystem of the
repository (src/backend/src/middleware/auth.js): token issuance
(`generateTokens`), request authorization (`authenticateToken`), and the
revocation registry (`revokeToken` with its threshold-triggered sweep).

Modelling choices (shallow embedding of the JavaScript source):

* Timestamps are natural numbers of milliseconds (`Date.now()`); payload
  `iat` is in seconds (`Math.floor(Date.now() / 1000)`).  Age computations
  are carried out in `Int`, matching JavaScript subtraction.
* A JWT token string is modelled by `TokenStr`.  Every JavaScript string is
  one of three kinds with respect to the `jsonwebtoken` library:
  `signed p exp key` (a well-formed JWT produced by `jwt.sign`, carrying its
  payload, its `exp` claim in seconds and the signing key), `garbage s`
  (a string on which `jwt.decode` returns `null`, e.g. `"x"`), and
  `throwing s` (a string on which `jwt.decode` raises, e.g. a token whose
  header has `typ: "JWT"` but whose payload segment is not valid JSON).
  `jwt.sign` with an HMAC secret is deterministic, so equality of
  `TokenStr` models equality of the underlying strings.
* The module-level `tokenBlacklist` (a JavaScript `Set` of strings) is an
  insertion-ordered duplicate-free `List TokenStr`; `Set.add` is `setAdd`,
  `Set.has` is list membership.
* The sweep body iterates the live set and only ever deletes the element
  currently visited, so its net effect is a `List.filter`.
* The `Authorization` header is a JavaScript string, modelled as
  `List Char`; `authHeader.split(' ')` is `jsSplit ' '`, the exact
  semantics of JavaScript `String.prototype.split` with a single-character
  separator.
-/

/-- The token payload built by `generateTokens`:
`{ id: userId, email, iat: Math.floor(Date.now() / 1000) }`. -/
structure Payload where
  id : Nat
  email : String
  iat : Nat
deriving DecidableEq, Repr

/-- A JavaScript string as seen by the `jsonwebtoken` library: a well-formed
signed JWT, a string `jwt.decode` maps to `null`, or a string `jwt.decode`
throws on. -/
inductive TokenStr where
  | signed (p : Payload) (exp : Nat) (key : Nat)
  | garbage (s : String)
  | throwing (s : String)
deriving DecidableEq, Repr

/-- `jwt.decode(token)` (no signature verification): the payload for any
well-formed JWT regardless of the signing key, `null` (`Except.ok none`)
for an undecodable string, an exception (`Except.error`) for the rest. -/
def jwtDecode : TokenStr → Except Unit (Option Payload)
  | .signed p _ _ => .ok (some p)
  | .garbage _ => .ok none
  | .throwing _ => .error ()

/-- Failure modes of `jwt.verify` distinguished by `authenticateToken`:
`TokenExpiredError` versus every other error. -/
inductive VerifyErr where
  | expired
  | invalid
deriving DecidableEq, Repr

/-- `jwt.verify(token, secret)` at clock time `nowMs`: the library first
checks well-formedness and the signature (any failure is a generic
`JsonWebTokenError`), then the `exp` claim against
`Math.floor(Date.now() / 1000)` (`TokenExpiredError` when
`clockTimestamp >= exp`). -/
def jwtVerify (t : TokenStr) (secret : Nat) (nowMs : Nat) : Except VerifyErr Payload :=
  match t with
  | .signed p exp key =>
      if key ≠ secret then .error .invalid
      else if exp ≤ nowMs / 1000 then .error .expired
      else .ok p
  | .garbage _ => .error .invalid
  | .throwing _ => .error .invalid

/-- `jwt.sign(payload, key, { expiresIn })`: the library sets
`exp = payload.iat + expiresIn` (seconds) when the payload already carries
an `iat` claim. -/
def jwtSign (p : Payload) (expiresInSec : Nat) (key : Nat) : TokenStr :=
  .signed p (p.iat + expiresInSec) key

/-- The `{ accessToken, refreshToken }` pair returned by `generateTokens`. -/
structure TokenPair where
  accessToken : TokenStr
  refreshToken : TokenStr
deriving DecidableEq, Repr

/-- `generateTokens(userId, email)` from auth.js, with the implicit inputs
made explicit: the clock (`nowMs`), the two module-level secrets, and the
configured access-token lifetime `JWT_EXPIRES_IN` in seconds (default
`'24h'` = 86400).  The refresh lifetime is the literal `'7d'`. -/
def generateTokens (nowMs : Nat) (userId : Nat) (email : String)
    (jwtSecret jwtRefreshSecret : Nat) (jwtExpiresInSec : Nat) : TokenPair :=
  let payload : Payload := { id := userId, email := email, iat := nowMs / 1000 }
  { accessToken := jwtSign payload jwtExpiresInSec jwtSecret
    refreshToken := jwtSign payload (7 * 24 * 60 * 60) jwtRefreshSecret }

/-- State-passing form of `generateTokens`: the source function reads and
writes no mutable module state (in particular it never touches
`tokenBlacklist`), so the embedding threads the registry through
unchanged. -/
def generateTokensS (st : List TokenStr) (nowMs : Nat) (userId : Nat) (email : String)
    (jwtSecret jwtRefreshSecret : Nat) (jwtExpiresInSec : Nat) :
    TokenPair × List TokenStr :=
  (generateTokens nowMs userId email jwtSecret jwtRefreshSecret jwtExpiresInSec, st)

/-- `tokenBlacklist.add(token)`: a JavaScript `Set` keeps insertion order
and ignores a duplicate insertion. -/
def setAdd (t : TokenStr) (bl : List TokenStr) : List TokenStr :=
  if t ∈ bl then bl else bl ++ [t]

/-- `tokenBlacklist.has(token)`, the registry membership check
(`is_revoked` in the specification). -/
def isRevoked (t : TokenStr) (bl : List TokenStr) : Bool :=
  decide (t ∈ bl)

/-- One iteration of the sweep body in `revokeToken`: delete the member
when `jwt.decode` throws (the `catch` branch) or when it yields a payload
with `decoded.iat * 1000 < Date.now() - 60*60*1000`; a member on which
`jwt.decode` returns `null` fails the `decoded && ...` test and is kept. -/
def shouldDelete (nowMs : Nat) (t : TokenStr) : Bool :=
  match jwtDecode t with
  | .error _ => true
  | .ok none => false
  | .ok (some p) => decide ((p.iat : Int) * 1000 < (nowMs : Int) - 60 * 60 * 1000)

/-- The deferred sweep scheduled by `revokeToken`, run at clock time
`nowMs`: it deletes exactly the members `shouldDelete` selects (deleting
the currently visited element of a `Set` mid-iteration is equivalent to a
filter). -/
def sweepBlacklist (nowMs : Nat) (bl : List TokenStr) : List TokenStr :=
  bl.filter (fun t => !shouldDelete nowMs t)

/-- The synchronous effect of `revokeToken(token)`: insert the token, and
report whether `tokenBlacklist.size % 100 === 0` afterwards, i.e. whether a
sweep was scheduled (the sweep itself runs asynchronously, via
`setTimeout(..., 0)`). -/
def revokeToken (t : TokenStr) (bl : List TokenStr) : List TokenStr × Bool :=
  let bl2 := setAdd t bl
  (bl2, bl2.length % 100 == 0)

/-- Outcome of the authorization gate: `success user` models
`req.user = user; next()`, and `reject status error` models
`res.status(status).json({ error })`. -/
inductive AuthResult where
  | success (user : Payload)
  | reject (status : Nat) (error : String)
deriving DecidableEq, Repr

/-- Lines 16–43 of auth.js, after token extraction: the blacklist check,
then `jwt.verify` (expired ↦ 401, other failure ↦ 403), then the redundant
age check `Date.now() - user.iat * 1000 > 24*60*60*1000` ↦ 401. -/
def authCheckToken (tokenBlacklist : List TokenStr) (jwtSecret : Nat) (nowMs : Nat)
    (token : TokenStr) : AuthResult :=
  if token ∈ tokenBlacklist then .reject 401 "Token has been revoked"
  else
    match jwtVerify token jwtSecret nowMs with
    | .error .expired => .reject 401 "Token expired"
    | .error .invalid => .reject 403 "Invalid token"
    | .ok user =>
        let tokenAge : Int := (nowMs : Int) - (user.iat : Int) * 1000
        let maxAge : Int := 24 * 60 * 60 * 1000
        if tokenAge > maxAge then .reject 401 "Token too old, please refresh"
        else .success user

/-- JavaScript `String.prototype.split` with a single-character separator:
`''.split(' ') = ['']`, `'a b'.split(' ') = ['a','b']`,
`' '.split(' ') = ['','']`. -/
def jsSplit (sep : Char) : List Char → List (List Char)
  | [] => [[]]
  | c :: cs =>
      if c = sep then [] :: jsSplit sep cs
      else
        match jsSplit sep cs with
        | [] => [[c]]
        | p :: ps => (c :: p) :: ps

/-- Lines 13–18 of auth.js:
`const token = authHeader && authHeader.split(' ')[1]` followed by
`if (!token)`.  Returns the extracted token string exactly when it is
truthy: the header is present and non-empty, index 1 exists after the
split, and the part there is non-empty. -/
def headerToken (authHeader : Option (List Char)) : Option (List Char) :=
  match authHeader with
  | none => none
  | some [] => none
  | some h =>
      match (jsSplit ' ' h)[1]? with
      | none => none
      | some [] => none
      | some tok => some tok

/-- The full `authenticateToken` middleware.  `toTok` interprets an
extracted token string in the JWT universe (every JavaScript string is
some `TokenStr`); the registry and the remaining checks operate on that
interpretation. -/
def authenticateToken (toTok : List Char → TokenStr) (tokenBlacklist : List TokenStr)
    (jwtSecret : Nat) (nowMs : Nat) (authHeader : Option (List Char)) : AuthResult :=
  match headerToken authHeader with
  | none => .reject 401 "Access token required"
  | some t => authCheckToken tokenBlacklist jwtSecret nowMs (toTok t)

/-- A registry of `n` distinct undecodable strings, used for concrete
scenarios that need the 100-member sweep threshold. -/
def garbageList (n : Nat) : List TokenStr :=
  (List.range n).map (fun i => .garbage (toString i))

/-! ## Claims -/

/-- C3: any token in the registry is rejected with `Revoked` before any
signature or format consideration — the result is the 401 revocation
rejection for every shape of token, malformed or invalidly signed
included. -/
theorem revoked_checked_first (t : TokenStr) (bl : List TokenStr) (jwtSecret nowMs : Nat)
    (h : t ∈ bl) :
    authCheckToken bl jwtSecret nowMs t = .reject 401 "Token has been revoked" := by
  simp [authCheckToken, h]

/-- Witness for `revoked_checked_first`: a syntactically malformed string
that is in the registry rejects with `Revoked`, not `Invalid`. -/
theorem revoked_checked_first_witness :
    authCheckToken [.garbage "x"] 7 0 (.garbage "x") = .reject 401 "Token has been revoked" :=
  revoked_checked_first (.garbage "x") [.garbage "x"] 7 0 (by decide)

/-- C4: for every inbound request the gate either attaches an identity
(`success`) or rejects with exactly one of the five outcomes with their
HTTP statuses: MissingToken 401, Revoked 401, Expired 401, TooOld 401,
Invalid 403. -/
theorem gate_outcomes (toTok : List Char → TokenStr) (bl : List TokenStr)
    (jwtSecret nowMs : Nat) (authHeader : Option (List Char)) :
    (∃ user, authenticateToken toTok bl jwtSecret nowMs authHeader = .success user) ∨
      authenticateToken toTok bl jwtSecret nowMs authHeader ∈
        [AuthResult.reject 401 "Access token required",
         AuthResult.reject 401 "Token has been revoked",
         AuthResult.reject 401 "Token expired",
         AuthResult.reject 401 "Token too old, please refresh",
         AuthResult.reject 403 "Invalid token"] := by
  unfold authenticateToken
  cases headerToken authHeader with
  | none => simp
  | some t =>
      unfold authCheckToken
      dsimp only
      by_cases hbl : toTok t ∈ bl
      · simp [hbl]
      · rw [if_neg hbl]
        cases hv : jwtVerify (toTok t) jwtSecret nowMs with
        | error e => cases e <;> simp [hv]
        | ok user =>
            dsimp only
            split
            · simp
            · exact Or.inl ⟨user, rfl⟩

/-- C7: `revokeToken` is idempotent at the synchronous level — a second
call on the same token raises no error (the model is a total function),
leaves the registry contents identical to the state after the first call,
and leaves `is_revoked` of that token true. -/
theorem revoke_idempotent (t : TokenStr) (bl : List TokenStr) :
    (revokeToken t (revokeToken t bl).1).1 = (revokeToken t bl).1 ∧
      isRevoked t (revokeToken t bl).1 = true := by
  have hmem : t ∈ setAdd t bl := by
    unfold setAdd
    by_cases h : t ∈ bl <;> simp [h]
  constructor
  · show setAdd t (setAdd t bl) = setAdd t bl
    conv_lhs => rw [setAdd]
    rw [if_pos hmem]
  · simp [isRevoked, revokeToken, hmem]

/-- C2: verifying the access token produced by `generateTokens` at the
same clock instant, when the token is not in the registry and the
configured lifetime is positive, succeeds and attaches the payload whose
subject id is the issuing `userId`. -/
theorem issue_then_verify (nowMs userId : Nat) (email : String)
    (jwtSecret jwtRefreshSecret jwtExpiresInSec : Nat) (bl : List TokenStr)
    (hL : 0 < jwtExpiresInSec)
    (hnb : (generateTokens nowMs userId email jwtSecret jwtRefreshSecret
      jwtExpiresInSec).accessToken ∉ bl) :
    authCheckToken bl jwtSecret nowMs
        (generateTokens nowMs userId email jwtSecret jwtRefreshSecret
          jwtExpiresInSec).accessToken
      = .success { id := userId, email := email, iat := nowMs / 1000 } := by
  have h1 : ¬ (nowMs / 1000 + jwtExpiresInSec ≤ nowMs / 1000) := by omega
  have h2 : ¬ ((nowMs : Int) - ((nowMs / 1000 : Nat) : Int) * 1000 > 24 * 60 * 60 * 1000) := by
    omega
  simp only [generateTokens, jwtSign] at hnb ⊢
  simp [authCheckToken, jwtVerify, hnb, h1, h2]
  all_goals omega

/-- Witness for `issue_then_verify`: the spec's concrete scenario — issue
for `{id: 1, email: "a@x.com"}` with the default 24h lifetime and verify
immediately against an empty registry. -/
theorem issue_then_verify_witness :
    authCheckToken [] 5 1700000000000
        (generateTokens 1700000000000 1 "a@x.com" 5 6 86400).accessToken
      = .success { id := 1, email := "a@x.com", iat := 1700000000 } :=
  issue_then_verify 1700000000000 1 "a@x.com" 5 6 86400 [] (by decide) (by decide)

/-- C6: a token that passes the revocation and signature checks and whose
`exp` claim still allows it is nevertheless rejected with `TooOld` as soon
as `now - iat*1000` exceeds the hardcoded 24-hour window — for every value
of the `exp` claim, i.e. independently of the configured access-token
lifetime, so the stricter check wins. -/
theorem tooOld_overrides_expiry (bl : List TokenStr) (jwtSecret nowMs : Nat)
    (p : Payload) (exp : Nat)
    (hnb : TokenStr.signed p exp jwtSecret ∉ bl)
    (hexp : nowMs / 1000 < exp)
    (hage : (nowMs : Int) - (p.iat : Int) * 1000 > 24 * 60 * 60 * 1000) :
    authCheckToken bl jwtSecret nowMs (.signed p exp jwtSecret)
      = .reject 401 "Token too old, please refresh" := by
  have h1 : ¬ (exp ≤ nowMs / 1000) := by omega
  simp [authCheckToken, jwtVerify, hnb, h1, hage]
  all_goals omega

/-- Witness for `tooOld_overrides_expiry`: a token issued at `iat = 0`
with a one-year `exp` claim, verified 24h + 1ms later, rejects `TooOld`. -/
theorem tooOld_overrides_expiry_witness :
    authCheckToken [] 5 86400001
        (.signed { id := 1, email := "a@x.com", iat := 0 } 31536000 5)
      = .reject 401 "Token too old, please refresh" :=
  tooOld_overrides_expiry [] 5 86400001 { id := 1, email := "a@x.com", iat := 0 }
    31536000 (by decide) (by decide) (by decide)

/-- C10: the sweep never deletes a member whose decoded `issued_at` lies
within one hour before the sweep time; a token revoked while in its first
hour stays in the registry through such a sweep, and `is_revoked` stays
true. -/
theorem sweep_keeps_fresh (p : Payload) (exp key : Nat) (bl : List TokenStr) (nowMs : Nat)
    (hmem : TokenStr.signed p exp key ∈ bl)
    (hfresh : (nowMs : Int) - 60 * 60 * 1000 ≤ (p.iat : Int) * 1000) :
    TokenStr.signed p exp key ∈ sweepBlacklist nowMs bl ∧
      isRevoked (TokenStr.signed p exp key) (sweepBlacklist nowMs bl) = true := by
  have hkeep : shouldDelete nowMs (.signed p exp key) = false := by
    simp only [shouldDelete, jwtDecode, decide_eq_false_iff_not]
    omega
  have hin : TokenStr.signed p exp key ∈ sweepBlacklist nowMs bl :=
    List.mem_filter.mpr ⟨hmem, by simp [hkeep]⟩
  exact ⟨hin, by simpa [isRevoked] using hin⟩

/-- Witness for `sweep_keeps_fresh`: a token issued at second 3600 stays
in a one-element registry through a sweep at the two-hour mark. -/
theorem sweep_keeps_fresh_witness :
    TokenStr.signed { id := 1, email := "a@x.com", iat := 3600 } 90000 5 ∈
        sweepBlacklist 7200000 [.signed { id := 1, email := "a@x.com", iat := 3600 } 90000 5] ∧
      isRevoked (TokenStr.signed { id := 1, email := "a@x.com", iat := 3600 } 90000 5)
        (sweepBlacklist 7200000 [.signed { id := 1, email := "a@x.com", iat := 3600 } 90000 5])
        = true :=
  sweep_keeps_fresh { id := 1, email := "a@x.com", iat := 3600 } 90000 5 _ 7200000
    (by decide) (by decide)

/-- JavaScript split on a string containing no separator yields the
one-element array holding the whole string. -/
theorem jsSplit_no_sep (sep : Char) (h : List Char) (hh : sep ∉ h) :
    jsSplit sep h = [h] := by
  induction h with
  | nil => rfl
  | cons c cs ih =>
      have hc : c ≠ sep := fun e => hh (e ▸ List.mem_cons_self c cs)
      have hcs : sep ∉ cs := fun e => hh (List.mem_cons_of_mem c e)
      simp only [jsSplit, if_neg hc, ih hcs]

/-- JavaScript split after a separator-free first chunk: the chunk becomes
the first part and the rest splits independently. -/
theorem jsSplit_append_sep (sep : Char) (s r : List Char) (hs : sep ∉ s) :
    jsSplit sep (s ++ sep :: r) = s :: jsSplit sep r := by
  induction s with
  | nil => simp [jsSplit]
  | cons c s' ih =>
      have hc : c ≠ sep := fun e => hs (e ▸ List.mem_cons_self c s')
      have hs' : sep ∉ s' := fun e => hs (List.mem_cons_of_mem c e)
      simp only [List.cons_append, jsSplit, if_neg hc, List.append_eq, ih hs']

/-- Unfolding of `headerToken` on a present header. -/
theorem headerToken_some_eq (h : List Char) :
    headerToken (some h) =
      match (jsSplit ' ' h)[1]? with
      | none => none
      | some [] => none
      | some tok => some tok := by
  cases h with
  | nil => rfl
  | cons c cs => rfl

/-- C9: the gate never validates the authorization scheme.  For a header
`"<scheme> <rest>"` the outcome is independent of the scheme word
(`Basic <token>` is verified exactly like `Bearer <token>`); with a
space-free non-empty token the second part is what gets checked; and a
header with fewer than two space-separated parts rejects as
MissingToken. -/
theorem gate_ignores_scheme (toTok : List Char → TokenStr) (bl : List TokenStr)
    (jwtSecret nowMs : Nat) (s1 s2 rest h tok : List Char)
    (h1 : ' ' ∉ s1) (h2 : ' ' ∉ s2) (hh : ' ' ∉ h)
    (ht : ' ' ∉ tok) (hne : tok ≠ []) :
    (authenticateToken toTok bl jwtSecret nowMs (some (s1 ++ ' ' :: rest)) =
       authenticateToken toTok bl jwtSecret nowMs (some (s2 ++ ' ' :: rest))) ∧
    (authenticateToken toTok bl jwtSecret nowMs (some (s1 ++ ' ' :: tok)) =
       authCheckToken bl jwtSecret nowMs (toTok tok)) ∧
    (authenticateToken toTok bl jwtSecret nowMs (some h) =
       .reject 401 "Access token required") := by
  refine ⟨?_, ?_, ?_⟩
  · unfold authenticateToken
    rw [headerToken_some_eq, headerToken_some_eq,
      jsSplit_append_sep ' ' s1 rest h1, jsSplit_append_sep ' ' s2 rest h2]
    simp only [List.getElem?_cons_succ]
  · unfold authenticateToken
    rw [headerToken_some_eq, jsSplit_append_sep ' ' s1 tok h1, jsSplit_no_sep ' ' tok ht]
    cases tok with
    | nil => exact absurd rfl hne
    | cons c cs => rfl
  · unfold authenticateToken
    rw [headerToken_some_eq, jsSplit_no_sep ' ' h hh]
    simp

/-- C1 (failing scenario): revocation is not permanent.  A still-valid
token (issued at `iat = 0`, 24h expiry, correctly signed with secret `5`)
is revoked; the insertion brings the registry to 100 members, scheduling a
sweep.  When the sweep runs at the two-hour mark the token is older than
the sweep's one-hour window and is deleted, and a subsequent
`authenticateToken` call at that same time ACCEPTS the previously revoked,
still-unexpired token instead of rejecting with `Revoked`. -/
theorem revoked_token_resurrected :
    (revokeToken (.signed { id := 1, email := "a@x.com", iat := 0 } 86400 5)
        (garbageList 99)).2 = true ∧
    isRevoked (.signed { id := 1, email := "a@x.com", iat := 0 } 86400 5)
        (revokeToken (.signed { id := 1, email := "a@x.com", iat := 0 } 86400 5)
          (garbageList 99)).1 = true ∧
    TokenStr.signed { id := 1, email := "a@x.com", iat := 0 } 86400 5 ∉
        sweepBlacklist 7200000
          (revokeToken (.signed { id := 1, email := "a@x.com", iat := 0 } 86400 5)
            (garbageList 99)).1 ∧
    authCheckToken
        (sweepBlacklist 7200000
          (revokeToken (.signed { id := 1, email := "a@x.com", iat := 0 } 86400 5)
            (garbageList 99)).1)
        5 7200000 (.signed { id := 1, email := "a@x.com", iat := 0 } 86400 5)
      = .success { id := 1, email := "a@x.com", iat := 0 } := by
  decide

/-- C5 (counterexample): a member that fails to decode is NOT deleted by
the sweep.  The revoke call brings the registry to 100 members and
schedules a sweep, the member `"x"` fails to decode (`jwt.decode` returns
`null`), yet it is still present after the sweep runs. -/
theorem sweep_keeps_undecodable :
    (revokeToken (.garbage "x") (garbageList 99)).2 = true ∧
    jwtDecode (.garbage "x") = .ok none ∧
    TokenStr.garbage "x" ∈
      sweepBlacklist 7200000 (revokeToken (.garbage "x") (garbageList 99)).1 :=
  ⟨by decide, rfl, by decide⟩

/-- C5 (amended): a registry member is deleted by the sweep exactly when
`jwt.decode` throws on it, or it decodes to a payload whose `issued_at` is
older than one hour before the sweep time; a member on which `jwt.decode`
returns `null` is kept. -/
theorem sweep_deletion_characterization (nowMs : Nat) (bl : List TokenStr) (t : TokenStr)
    (ht : t ∈ bl) :
    t ∉ sweepBlacklist nowMs bl ↔
      ((∃ s, t = .throwing s) ∨
        (∃ p, jwtDecode t = .ok (some p) ∧
          (p.iat : Int) * 1000 < (nowMs : Int) - 60 * 60 * 1000)) := by
  have h1 : t ∉ sweepBlacklist nowMs bl ↔ shouldDelete nowMs t = true := by
    constructor
    · intro hns
      by_contra hsd
      refine hns (List.mem_filter.mpr ⟨ht, ?_⟩)
      simp only [Bool.not_eq_true] at hsd
      simp [hsd]
    · intro hsd hmem
      have h2 := (List.mem_filter.mp hmem).2
      simp [hsd] at h2
  rw [h1]
  cases t with
  | signed p e k => simp [shouldDelete, jwtDecode]
  | garbage s => simp [shouldDelete, jwtDecode]
  | throwing s => simp [shouldDelete, jwtDecode]

/-- Witness for `sweep_deletion_characterization`: a member that
`jwt.decode` throws on is deleted by a sweep at time 0. -/
theorem sweep_deletion_characterization_witness :
    TokenStr.throwing "z" ∉ sweepBlacklist 0 [.throwing "z"] :=
  (sweep_deletion_characterization 0 [.throwing "z"] (.throwing "z")
      (by decide)).mpr (Or.inl ⟨"z", rfl⟩)

/-- C8 (counterexample): `generateTokens` is not a function of
`(userId, email)` and the secrets alone — the embedded `iat` comes from
the clock, so the same inputs at clock times 0 and 1000 yield different
pairs. -/
theorem generateTokens_time_dependent :
    generateTokens 0 1 "a@x.com" 5 6 86400 ≠ generateTokens 1000 1 "a@x.com" 5 6 86400 := by
  decide

/-- C8 (amended): `generateTokens` has no side effects — it leaves the
registry untouched — and is a pure function of its inputs, the two
secrets, and the clock second: two calls whose clock instants fall in the
same second produce identical token pairs. -/
theorem generateTokens_pure (st : List TokenStr) (now1 now2 userId : Nat) (email : String)
    (jwtSecret jwtRefreshSecret jwtExpiresInSec : Nat)
    (hsec : now1 / 1000 = now2 / 1000) :
    (generateTokensS st now1 userId email jwtSecret jwtRefreshSecret jwtExpiresInSec).2 = st ∧
      generateTokensS st now1 userId email jwtSecret jwtRefreshSecret jwtExpiresInSec
        = generateTokensS st now2 userId email jwtSecret jwtRefreshSecret jwtExpiresInSec := by
  exact ⟨rfl, by simp [generateTokensS, generateTokens, hsec]⟩

/-- Witness for `generateTokens_pure`: clock instants 5 and 900 fall in
second 0 and give identical pairs over an empty registry. -/
theorem generateTokens_pure_witness :
    (generateTokensS [] 5 1 "a@x.com" 5 6 86400).2 = ([] : List TokenStr) ∧
      generateTokensS [] 5 1 "a@x.com" 5 6 86400
        = generateTokensS [] 900 1 "a@x.com" 5 6 86400 :=
  generateTokens_pure [] 5 900 1 "a@x.com" 5 6 86400 (by decide)

/-- Witness for `gate_ignores_scheme`: `Basic t` and `Bearer t` give the
same outcome, a scheme plus token `tok` checks exactly that token, and the
spaceless header `hdr` rejects as MissingToken. -/
theorem gate_ignores_scheme_witness :
    (authenticateToken (fun s => .garbage (String.mk s)) [] 5 0
        (some (['B','a','s','i','c'] ++ ' ' :: ['t'])) =
       authenticateToken (fun s => .garbage (String.mk s)) [] 5 0
        (some (['B','e','a','r','e','r'] ++ ' ' :: ['t']))) ∧
    (authenticateToken (fun s => .garbage (String.mk s)) [] 5 0
        (some (['B','a','s','i','c'] ++ ' ' :: ['t','o','k'])) =
       authCheckToken [] 5 0 (.garbage (String.mk ['t','o','k']))) ∧
    (authenticateToken (fun s => .garbage (String.mk s)) [] 5 0
        (some ['h','d','r']) = .reject 401 "Access token required") :=
  gate_ignores_scheme (fun s => .garbage (String.mk s)) [] 5 0
    ['B','a','s','i','c'] ['B','e','a','r','e','r'] ['t'] ['h','d','r'] ['t','o','k']
    (by decide) (by decide) (by decide) (by decide) (by decide)
